import Mathlib

/-!
A shallow embedding, in Lean 4, of the agentic research loop of the
`ai-hero` repository (day-6 app): the `SystemContext` evidence container
and `getNextAction` (system-context module), the `runAgentLoop`
orchestrator with its `searchWeb` / `scrapeUrl` helpers
(run-agent-loop module), and `answerQuestion` (answer-question module).

Modelling conventions:
* TypeScript objects become structures; arrays become `List`.
* The external collaborators (the structured-decision LLM call
  `generateObject`, the search backend `searchSerper`, the crawler
  `bulkCrawlWebsites`, the generation stream of `streamText`) are
  oracles collected in an `Env` structure.  An oracle that the code may
  call several times with observably different answers is modelled as a
  function of the full current `SystemContext`, which changes between
  loop iterations (the step counter increments), so every sequence of
  responses is representable.
* `async`/`await` sequencing is direct (each call resolves before the
  next starts, as the source awaits every call).
* JS values that may be `undefined` because the zod schema leaves them
  optional are modelled as `Option`.
-/

namespace DeepSearch

/-- A single search result as stored in the query history
(system-context module, `QueryResultSearchResult`). -/
structure QueryResultSearchResult where
  date : String
  title : String
  url : String
  snippet : String
deriving Repr, DecidableEq

/-- One query record: the query together with its results
(system-context module, `QueryResult`).  The TS type declares
`query: string`, but the value stored by the loop is
`nextAction.query`, whose schema type is optional, so at runtime it can
be `undefined`; we model the stored field as `Option String`. -/
structure QueryResult where
  query : Option String
  results : List QueryResultSearchResult
deriving Repr, DecidableEq

/-- One scrape record: url and extracted text
(system-context module, `ScrapeResult`). -/
structure ScrapeResult where
  url : String
  result : String
deriving Repr, DecidableEq

/-- JS template-literal coercion of a possibly-`undefined` string:
`undefined` interpolates as the text "undefined". -/
def jsString : Option String → String
  | some s => s
  | none => "undefined"

/-- JS `Array.prototype.join(sep)` for an array of strings: the empty
array gives the empty string, otherwise the elements interleaved with
the separator. -/
def joinSep (sep : String) : List String → String
  | [] => ""
  | [x] => x
  | x :: y :: xs => x ++ sep ++ joinSep sep (y :: xs)

/-- The per-request evidence container (system-context module, class
`SystemContext`): a step counter starting at 0 and two append-only
histories.  TS private mutable fields become structure fields updated
functionally. -/
structure SystemContext where
  step : Nat := 0
  queryHistory : List QueryResult := []
  scrapeHistory : List ScrapeResult := []
deriving Repr, DecidableEq

/-- `shouldStop() { return this.step >= 10; }` -/
def SystemContext.shouldStop (c : SystemContext) : Bool :=
  decide (c.step ≥ 10)

/-- `incrementStep() { this.step++; }` -/
def SystemContext.incrementStep (c : SystemContext) : SystemContext :=
  { c with step := c.step + 1 }

/-- `getStep() { return this.step; }` -/
def SystemContext.getStep (c : SystemContext) : Nat :=
  c.step

/-- `reportQueries(queries) { this.queryHistory.push(...queries); }` -/
def SystemContext.reportQueries (c : SystemContext) (queries : List QueryResult) :
    SystemContext :=
  { c with queryHistory := c.queryHistory ++ queries }

/-- `reportScrapes(scrapes) { this.scrapeHistory.push(...scrapes); }` -/
def SystemContext.reportScrapes (c : SystemContext) (scrapes : List ScrapeResult) :
    SystemContext :=
  { c with scrapeHistory := c.scrapeHistory ++ scrapes }

/-- `toQueryResult` (system-context module): renders one search result
as a markdown block. -/
def toQueryResult (query : QueryResultSearchResult) : String :=
  joinSep "\n\n" ["### " ++ query.date ++ " - " ++ query.title, query.url, query.snippet]

/-- `getQueryHistory()`: the query history rendered as markdown text,
in insertion order. -/
def SystemContext.getQueryHistory (c : SystemContext) : String :=
  joinSep "\n\n"
    (c.queryHistory.map fun query =>
      joinSep "\n\n"
        (("## Query: \"" ++ jsString query.query ++ "\"") :: query.results.map toQueryResult))

/-- `getScrapeHistory()`: the scrape history rendered as markdown text,
in insertion order. -/
def SystemContext.getScrapeHistory (c : SystemContext) : String :=
  joinSep "\n\n"
    (c.scrapeHistory.map fun scrape =>
      joinSep "\n\n"
        ["## Scrape: \"" ++ scrape.url ++ "\"", "<scrape_result>", scrape.result,
          "</scrape_result>"])

/-- The structured decision object (system-context module, `actionSchema`
/ type `Action`).  The zod schema types `type` as an enum string and
leaves `query` and `urls` optional, so the runtime object is modelled
with a raw string tag and optional payload fields. -/
structure Action where
  title : String
  reasoning : String
  type : String
  query : Option String := none
  urls : Option (List String) := none
deriving Repr, DecidableEq

/-- What `actionSchema` actually validates about the payload: `title` and
`reasoning` are strings, `type` is one of the three enum values, and
`query` / `urls` are optional with no conditional requirement tied to
`type`. -/
def actionSchemaOk (a : Action) : Bool :=
  a.type == "search" || a.type == "scrape" || a.type == "answer"

/-- One organic result of the external `searchSerper` call: `date` is
optional in the backend's payload (`result.date || ""` in `searchWeb`). -/
structure SerperOrganicResult where
  title : String
  link : String
  snippet : String
  date : Option String
deriving Repr, DecidableEq

/-- Per-URL outcome of the external crawler: extracted text on success,
an error message on failure. -/
inductive CrawlResult where
  | ok (data : String)
  | fail (error : String)
deriving Repr, DecidableEq

/-- The `success` discriminant of a per-URL crawl outcome. -/
def CrawlResult.isOk : CrawlResult → Bool
  | .ok _ => true
  | .fail _ => false

/-- `result.success ? result.data : result.error` — the string the
day-6 `scrapeUrl` reads out of a per-URL outcome. -/
def CrawlResult.dataOrError : CrawlResult → String
  | .ok d => d
  | .fail e => e

/-- One entry of the crawler's `results` array: `{ url, result }`. -/
structure BulkCrawlEntry where
  url : String
  result : CrawlResult
deriving Repr, DecidableEq

/-- The aggregate response of `bulkCrawlWebsites`: per-URL results, an
aggregate success flag, and an aggregate error message when some URL
failed. -/
structure BulkCrawlResponse where
  success : Bool
  error : Option String
  results : List BulkCrawlEntry
deriving Repr, DecidableEq

/-- The text stream produced by the `streamText` generation call, as the
caller observes it chunk by chunk: it yields chunks in order and then
either completes or raises an error. -/
inductive TextStream where
  | done
  | next (chunk : String) (rest : TextStream)
  | err (error : String)
deriving Repr, DecidableEq

/-- The external collaborators of the loop, as oracles.
`chooseObject` models one `generateObject` invocation inside
`getNextAction`: it receives the invocation's context (which identifies
the call, since the step counter increments between iterations) and the
built prompt, and returns the schema-validated object.  `crawlResults`
models the per-URL outcomes of the external crawler, `serperOrganic`
the organic results of `searchSerper`, `generated` the text stream of
one `streamText` call for a given prompt, and `now` the value of
`new Date().toLocaleString()`. -/
structure Env where
  chooseObject : SystemContext → String → Action
  serperOrganic : Option String → List SerperOrganicResult
  crawlResults : Option (List String) → List BulkCrawlEntry
  crawlError : Option (List String) → String
  generated : String → TextStream

  now : String

/-- Modelled from the spec: `bulkCrawlWebsites` (the Scrape
Collaborator, `~/server/scraper`, whose implementation is not among the
given sources) fetches each URL and returns per-URL success/failure
with extracted text or an error, with the aggregate success flag set
exactly when all URLs succeed, and an aggregate error otherwise. -/
def bulkCrawlWebsites (env : Env) (urls : Option (List String)) : BulkCrawlResponse :=
  let rs := env.crawlResults urls
  { success := rs.all fun e => e.result.isOk
    error := if rs.all (fun e => e.result.isOk) then none else some (env.crawlError urls)
    results := rs }

/-- A mapped search result as `searchWeb` returns it. -/
structure SearchWebResult where
  title : String
  link : String
  snippet : String
  date : String
deriving Repr, DecidableEq

/-- `searchWeb` (run-agent-loop module): one `searchSerper` call, organic
results mapped to `{title, link, snippet, date: result.date || ""}`.
The query is typed `string` in TS but receives `nextAction.query`,
which the schema leaves optional, hence `Option String` here. -/
def searchWeb (env : Env) (query : Option String) : List SearchWebResult :=
  (env.serperOrganic query).map fun result =>
    { title := result.title
      link := result.link
      snippet := result.snippet
      date := result.date.getD "" }

/-- One entry of `scrapeUrl`'s `results` array. -/
structure ScrapeUrlEntry where
  url : String
  success : Bool
  data : String
deriving Repr, DecidableEq

/-- The response of `scrapeUrl`: `results` is present in both branches of
the source; `error` only in the failure branch. -/
structure ScrapeUrlResponse where
  error : Option String := none
  results : Option (List ScrapeUrlEntry)
deriving Repr, DecidableEq

/-- `scrapeUrl` (run-agent-loop module).  In the failure branch each
entry's `data` is `result.success ? result.data : result.error`, i.e.
`dataOrError`; in the aggregate-success branch the source reads
`result.data` directly, which coincides with `dataOrError` because
aggregate success holds exactly when every entry is `ok`. -/
def scrapeUrl (env : Env) (urls : Option (List String)) : ScrapeUrlResponse :=
  let results := bulkCrawlWebsites env urls
  if !results.success then
    { error := results.error
      results := some (results.results.map fun r =>
        { url := r.url, success := r.result.isOk, data := r.result.dataOrError }) }
  else
    { results := some (results.results.map fun r =>
        { url := r.url, success := r.result.isOk, data := r.result.dataOrError }) }

/-- The prompt `getNextAction` builds for its `generateObject` call
(system-context module): the template literal with the current date,
the user question and both rendered histories interpolated. -/
def buildNextActionPrompt (now : String) (context : SystemContext)
    (userQuestion : String) : String :=
  "\nYou are a helpful AI assistant with access to real-time web search capabilities. The current date and time is " ++
    now ++ ".\n\nYour goal is to help answer the user's question: \"" ++ userQuestion ++
    "\"\n\nYou have three possible actions:\n1. 'search' - Search the web for more information\n2. 'scrape' - Scrape specific URLs to get detailed content\n3. 'answer' - Answer the user's question when you have enough information\n\nGuidelines:\n- Always search the web for up-to-date information when relevant\n- After finding relevant URLs from search results, scrape the most promising 4-6 URLs to get full content\n- Choose diverse sources (news sites, blogs, official documentation, etc.)\n- Prioritize official sources and authoritative websites\n- Only answer when you have comprehensive information from multiple sources\n- If you're unsure about something, search or scrape more sources to verify\n\nCurrent context:\n\n" ++
    context.getQueryHistory ++ "\n\n" ++ context.getScrapeHistory ++
    "\n\nBased on the above context and the user's question, what should be the next action?\n    "

/-- `getNextAction` (system-context module): builds the prompt, makes one
`generateObject` call constrained to `actionSchema`, and returns
`result.object` unchanged — no further validation of `query` / `urls`
against `type`. -/
def getNextAction (env : Env) (context : SystemContext) (userQuestion : String) : Action :=
  env.chooseObject context (buildNextActionPrompt env.now context userQuestion)

/-- The options object of `answerQuestion` (answer-question module). -/
structure AnswerOptions where
  isFinal : Bool
deriving Repr, DecidableEq

/-- The system prompt `answerQuestion` builds: mode-specific
instructions selected by `isFinal`, then guidelines and both rendered
histories. -/
def buildAnswerSystemPrompt (now : String) (userQuestion : String)
    (options : AnswerOptions) (context : SystemContext) : String :=
  "You are a helpful AI assistant with access to real-time web search capabilities. The current date and time is " ++
    now ++ ".\n\nYour goal is to answer the user's question: \"" ++ userQuestion ++ "\"\n\n" ++
    (if options.isFinal then
      "IMPORTANT: We may not have all the information we need to answer the question completely, but we need to make our best effort based on the available information. Be honest about any limitations or uncertainties."
    else
      "You have comprehensive information from multiple sources. Provide a detailed and accurate answer.") ++
    "\n\nGuidelines:\n- Always format URLs as markdown links using the format [title](url)\n- Be thorough but concise in your responses\n- When providing information, always include the source where you found it using markdown links\n- Never include raw URLs - always use markdown link format\n- When users ask for up-to-date information, use the current date to provide context about how recent the information is\n- If you're unsure about something, acknowledge the uncertainty\n\nCurrent context from web searches and scraped content:\n\n" ++
    context.getQueryHistory ++ "\n\n" ++ context.getScrapeHistory ++
    "\n\nBased on the above information, provide a comprehensive answer to the user's question."

/-- The `for await (const chunk of result.textStream) fullText += chunk`
drain: accumulates chunks in order; when the stream completes, the
accumulated text is returned; when it raises, the error propagates and
no partial text is returned. -/
def collectStream : TextStream → String → Except String String
  | .done, fullText => .ok fullText
  | .next chunk rest, fullText => collectStream rest (fullText ++ chunk)
  | .err e, _ => .error e

/-- The chunks a stream yields before completing or raising. -/
def TextStream.chunks : TextStream → List String
  | .done => []
  | .next chunk rest => chunk :: rest.chunks
  | .err _ => []

/-- The error a stream raises, `none` when it completes normally. -/
def TextStream.raisedError : TextStream → Option String
  | .done => none
  | .next _ rest => rest.raisedError
  | .err e => some e

/-- `answerQuestion` (answer-question module): builds the system prompt,
makes one `streamText` call and drains its text stream into a single
string.  A rejected promise is modelled as `Except.error`. -/
def answerQuestion (env : Env) (context : SystemContext) (userQuestion : String)
    (options : AnswerOptions) : Except String String :=
  collectStream (env.generated (buildAnswerSystemPrompt env.now userQuestion options context)) ""

/-- One observable collaborator interaction of the loop, in order:
an Action Chooser invocation (`getNextAction`), a search
(`searchWeb`), a scrape (`scrapeUrl`) or an answer synthesis
(`answerQuestion`, with its `isFinal` flag). -/
inductive Event where
  | choose (action : Action)
  | searchCall (query : Option String)
  | scrapeCall (urls : Option (List String))
  | answerCall (isFinal : Bool)
deriving Repr, DecidableEq

/-- The loop's handling of a scrape response:
`if (scrapeResults.results) ctx.reportScrapes(results.filter(success).map({url, result: data}))`.
(`results` is present in both branches of `scrapeUrl`, and in JS even an
empty array is truthy, so the guard always passes.) -/
def applyScrapeResults (ctx : SystemContext) (scrapeResults : ScrapeUrlResponse) :
    SystemContext :=
  match scrapeResults.results with
  | some rs =>
      ctx.reportScrapes ((rs.filter fun result => result.success).map fun result =>
        { url := result.url, result := result.data })
  | none => ctx

/-- `runAgentLoop`'s `while (!ctx.shouldStop())` loop, starting from an
arbitrary current context.  Returns the answer (an `Except`, since
`answerQuestion` may propagate a stream error) together with the trace
of collaborator interactions.  The optional `writeMessageAnnotation`
callback has no effect on state or result and is not traced. -/
def runAgentLoopAux (env : Env) (userQuestion : String) (ctx : SystemContext) :
    Except String String × List Event :=
  if ctx.shouldStop then
    (answerQuestion env ctx userQuestion { isFinal := true }, [.answerCall true])
  else
    let nextAction := getNextAction env ctx userQuestion
    if nextAction.type == "search" then
      let searchResults := searchWeb env nextAction.query
      let r := runAgentLoopAux env userQuestion
        ((ctx.reportQueries
          [{ query := nextAction.query
             results := searchResults.map fun result =>
               { date := result.date
                 title := result.title
                 url := result.link
                 snippet := result.snippet } }]).incrementStep)
      (r.1, .choose nextAction :: .searchCall nextAction.query :: r.2)
    else if nextAction.type == "scrape" then
      let scrapeResults := scrapeUrl env nextAction.urls
      let r := runAgentLoopAux env userQuestion
        ((applyScrapeResults ctx scrapeResults).incrementStep)
      (r.1, .choose nextAction :: .scrapeCall nextAction.urls :: r.2)
    else if nextAction.type == "answer" then
      (answerQuestion env ctx userQuestion { isFinal := false },
        [.choose nextAction, .answerCall false])
    else
      let r := runAgentLoopAux env userQuestion ctx.incrementStep
      (r.1, .choose nextAction :: r.2)
termination_by 10 - ctx.step
decreasing_by
  all_goals
    simp only [SystemContext.shouldStop, decide_eq_true_eq, not_le,
      SystemContext.incrementStep, SystemContext.reportQueries, applyScrapeResults] at *
  all_goals first
  | omega
  | (split <;> simp_all [SystemContext.reportScrapes] <;> omega)

/-- `runAgentLoop` (run-agent-loop module): a fresh `SystemContext`
(step 0, empty histories), then the bounded loop. -/
def runAgentLoop (env : Env) (userQuestion : String) :
    Except String String × List Event :=
  runAgentLoopAux env userQuestion {}

/-- Number of Action Chooser invocations (`getNextAction` calls)
recorded in a trace. -/
def countChooseCalls (trace : List Event) : Nat :=
  trace.countP fun e => match e with | .choose _ => true | _ => false

/-- Number of chosen actions carrying a given `type` tag. -/
def countChosenOfType (t : String) (trace : List Event) : Nat :=
  trace.countP fun e => match e with | .choose a => a.type == t | _ => false

/-- Number of `searchWeb` executions recorded in a trace. -/
def countSearchCalls (trace : List Event) : Nat :=
  trace.countP fun e => match e with | .searchCall _ => true | _ => false

/-- Number of `scrapeUrl` executions recorded in a trace. -/
def countScrapeCalls (trace : List Event) : Nat :=
  trace.countP fun e => match e with | .scrapeCall _ => true | _ => false

/-- Number of Answer Synthesizer invocations (`answerQuestion` calls)
recorded in a trace. -/
def countAnswerCalls (trace : List Event) : Nat :=
  trace.countP fun e => match e with | .answerCall _ => true | _ => false

/-- Number of Answer Synthesizer invocations with the given mode flag. -/
def countAnswerCallsWith (isFinal : Bool) (trace : List Event) : Nat :=
  trace.countP fun e => match e with | .answerCall b => b == isFinal | _ => false

/-- The context update performed by the loop's `search` branch:
`reportQueries` with the single query record built from the search
results, then `incrementStep`. -/
def searchStepContext (env : Env) (ctx : SystemContext) (a : Action) : SystemContext :=
  (ctx.reportQueries
    [{ query := a.query
       results := (searchWeb env a.query).map fun result =>
         { date := result.date
           title := result.title
           url := result.link
           snippet := result.snippet } }]).incrementStep

/-- The context update performed by the loop's `scrape` branch:
the truthiness-guarded `reportScrapes`, then `incrementStep`. -/
def scrapeStepContext (env : Env) (ctx : SystemContext) (a : Action) : SystemContext :=
  (applyScrapeResults ctx (scrapeUrl env a.urls)).incrementStep

/-- The scrape records the loop appends for a scrape action: the
individually successful crawl outcomes, in order, as `{url, result}`. -/
def successfulScrapeRecords (env : Env) (urls : Option (List String)) :
    List ScrapeResult :=
  ((env.crawlResults urls).filter fun r => r.result.isOk).map fun r =>
    { url := r.url, result := r.result.dataOrError }

/-- A sample action whose chooser immediately answers. -/
def answerChoiceAction : Action :=
  { title := "t", reasoning := "r", type := "answer" }

/-- A sample schema-conforming search action with a query. -/
def searchChoiceAction : Action :=
  { title := "t", reasoning := "r", type := "search", query := some "X" }

/-- A sample schema-conforming scrape action over two URLs. -/
def scrapeChoiceAction : Action :=
  { title := "t", reasoning := "r", type := "scrape", urls := some ["a", "b"] }

/-- A schema-conforming search action with the `query` field absent. -/
def queryFreeSearchAction : Action :=
  { title := "t", reasoning := "r", type := "search" }

/-- A schema-conforming scrape action with the `urls` field absent. -/
def urlFreeScrapeAction : Action :=
  { title := "t", reasoning := "r", type := "scrape" }

/-- A concrete environment whose chooser constantly returns `a`: the
crawler reports url "a" succeeding and url "b" failing, search returns
no organic results, and generation completes immediately.  Used to
instantiate the loop theorems on concrete runs. -/
def envChoosing (a : Action) : Env where
  chooseObject := fun _ _ => a
  serperOrganic := fun _ => []
  crawlResults := fun _ =>
    [{ url := "a", result := .ok "content-a" }, { url := "b", result := .fail "fetch failed" }]
  crawlError := fun _ => "aggregate failure"
  generated := fun _ => .done
  now := "1/1/2025, 12:00:00 AM"

/-! Helper lemmas about the embedding, shared by the claim theorems. -/

theorem applyScrapeResults_step (ctx : SystemContext) (s : ScrapeUrlResponse) :
    (applyScrapeResults ctx s).step = ctx.step := by
  unfold applyScrapeResults
  cases s.results <;> simp [SystemContext.reportScrapes]

theorem searchStepContext_step (env : Env) (ctx : SystemContext) (a : Action) :
    (searchStepContext env ctx a).step = ctx.step + 1 := by
  simp [searchStepContext, SystemContext.reportQueries, SystemContext.incrementStep]

theorem scrapeStepContext_step (env : Env) (ctx : SystemContext) (a : Action) :
    (scrapeStepContext env ctx a).step = ctx.step + 1 := by
  simp [scrapeStepContext, SystemContext.incrementStep, applyScrapeResults_step]

theorem runAux_stop (env : Env) (q : String) (ctx : SystemContext)
    (h : ctx.shouldStop = true) :
    runAgentLoopAux env q ctx =
      (answerQuestion env ctx q { isFinal := true }, [.answerCall true]) := by
  rw [runAgentLoopAux]; simp [h]

theorem runAux_search_step (env : Env) (q : String) (ctx : SystemContext)
    (h : ctx.shouldStop = false) (hs : (getNextAction env ctx q).type = "search") :
    runAgentLoopAux env q ctx =
      ((runAgentLoopAux env q (searchStepContext env ctx (getNextAction env ctx q))).1,
        .choose (getNextAction env ctx q) ::
          .searchCall (getNextAction env ctx q).query ::
          (runAgentLoopAux env q (searchStepContext env ctx (getNextAction env ctx q))).2) := by
  rw [runAgentLoopAux]
  simp [h, hs, searchStepContext]

theorem runAux_scrape_step (env : Env) (q : String) (ctx : SystemContext)
    (h : ctx.shouldStop = false) (hs : (getNextAction env ctx q).type = "scrape") :
    runAgentLoopAux env q ctx =
      ((runAgentLoopAux env q (scrapeStepContext env ctx (getNextAction env ctx q))).1,
        .choose (getNextAction env ctx q) ::
          .scrapeCall (getNextAction env ctx q).urls ::
          (runAgentLoopAux env q (scrapeStepContext env ctx (getNextAction env ctx q))).2) := by
  rw [runAgentLoopAux]
  simp [h, hs, scrapeStepContext]

theorem runAux_answer_step (env : Env) (q : String) (ctx : SystemContext)
    (h : ctx.shouldStop = false) (hs : (getNextAction env ctx q).type = "answer") :
    runAgentLoopAux env q ctx =
      (answerQuestion env ctx q { isFinal := false },
        [.choose (getNextAction env ctx q), .answerCall false]) := by
  rw [runAgentLoopAux]
  simp [h, hs]

theorem runAux_other_step (env : Env) (q : String) (ctx : SystemContext)
    (h : ctx.shouldStop = false)
    (h1 : (getNextAction env ctx q).type ≠ "search")
    (h2 : (getNextAction env ctx q).type ≠ "scrape")
    (h3 : (getNextAction env ctx q).type ≠ "answer") :
    runAgentLoopAux env q ctx =
      ((runAgentLoopAux env q ctx.incrementStep).1,
        .choose (getNextAction env ctx q) ::
          (runAgentLoopAux env q ctx.incrementStep).2) := by
  rw [runAgentLoopAux]
  simp [h, h1, h2, h3]

theorem runAux_countAnswerCalls (env : Env) (q : String) :
    ∀ ctx : SystemContext, countAnswerCalls (runAgentLoopAux env q ctx).2 = 1 := by
  intro ctx
  generalize hn : 10 - ctx.step = n
  induction n using Nat.strong_induction_on generalizing ctx with
  | _ n ih =>
  by_cases h : ctx.shouldStop = true
  · rw [runAux_stop env q ctx h]
    simp [countAnswerCalls]
  · have h0 : ctx.shouldStop = false := by simpa using h
    have hstep : ctx.step < 10 := by
      simpa [SystemContext.shouldStop] using h0
    by_cases hs : (getNextAction env ctx q).type = "search"
    · rw [runAux_search_step env q ctx h0 hs]
      have := ih (10 - (ctx.step + 1)) (by omega)
        (searchStepContext env ctx (getNextAction env ctx q))
        (by rw [searchStepContext_step])
      simpa [countAnswerCalls, List.countP_cons] using this
    · by_cases hsc : (getNextAction env ctx q).type = "scrape"
      · rw [runAux_scrape_step env q ctx h0 hsc]
        have := ih (10 - (ctx.step + 1)) (by omega)
          (scrapeStepContext env ctx (getNextAction env ctx q))
          (by rw [scrapeStepContext_step])
        simpa [countAnswerCalls, List.countP_cons] using this
      · by_cases han : (getNextAction env ctx q).type = "answer"
        · rw [runAux_answer_step env q ctx h0 han]
          simp [countAnswerCalls, List.countP_cons]
        · rw [runAux_other_step env q ctx h0 hs hsc han]
          have := ih (10 - (ctx.step + 1)) (by omega)
            ctx.incrementStep
            (by simp [SystemContext.incrementStep])
          simpa [countAnswerCalls, List.countP_cons] using this

theorem runAux_countChooseCalls_le (env : Env) (q : String) :
    ∀ ctx : SystemContext, countChooseCalls (runAgentLoopAux env q ctx).2 ≤ 10 - ctx.step := by
  intro ctx
  generalize hn : 10 - ctx.step = n
  induction n using Nat.strong_induction_on generalizing ctx with
  | _ n ih =>
  by_cases h : ctx.shouldStop = true
  · rw [runAux_stop env q ctx h]
    simp [countChooseCalls]
  · have h0 : ctx.shouldStop = false := by simpa using h
    have hstep : ctx.step < 10 := by
      simpa [SystemContext.shouldStop] using h0
    by_cases hs : (getNextAction env ctx q).type = "search"
    · rw [runAux_search_step env q ctx h0 hs]
      have hrec := ih (10 - (ctx.step + 1)) (by omega)
        (searchStepContext env ctx (getNextAction env ctx q))
        (by rw [searchStepContext_step])
      simp [countChooseCalls, List.countP_cons] at hrec ⊢
      omega
    · by_cases hsc : (getNextAction env ctx q).type = "scrape"
      · rw [runAux_scrape_step env q ctx h0 hsc]
        have hrec := ih (10 - (ctx.step + 1)) (by omega)
          (scrapeStepContext env ctx (getNextAction env ctx q))
          (by rw [scrapeStepContext_step])
        simp [countChooseCalls, List.countP_cons] at hrec ⊢
        omega
      · by_cases han : (getNextAction env ctx q).type = "answer"
        · rw [runAux_answer_step env q ctx h0 han]
          simp [countChooseCalls, List.countP_cons]
          omega
        · rw [runAux_other_step env q ctx h0 hs hsc han]
          have hrec := ih (10 - (ctx.step + 1)) (by omega)
            ctx.incrementStep (by simp [SystemContext.incrementStep])
          simp [countChooseCalls, List.countP_cons, SystemContext.incrementStep] at hrec ⊢
          omega

theorem runAux_searchCalls_eq_chosen (env : Env) (q : String) :
    ∀ ctx : SystemContext,
      countSearchCalls (runAgentLoopAux env q ctx).2 =
        countChosenOfType "search" (runAgentLoopAux env q ctx).2 := by
  intro ctx
  generalize hn : 10 - ctx.step = n
  induction n using Nat.strong_induction_on generalizing ctx with
  | _ n ih =>
  by_cases h : ctx.shouldStop = true
  · rw [runAux_stop env q ctx h]
    simp [countSearchCalls, countChosenOfType]
  · have h0 : ctx.shouldStop = false := by simpa using h
    have hstep : ctx.step < 10 := by
      simpa [SystemContext.shouldStop] using h0
    by_cases hs : (getNextAction env ctx q).type = "search"
    · rw [runAux_search_step env q ctx h0 hs]
      have := ih (10 - (ctx.step + 1)) (by omega)
        (searchStepContext env ctx (getNextAction env ctx q))
        (by rw [searchStepContext_step])
      simp only [countSearchCalls, countChosenOfType, List.countP_cons, hs] at this ⊢
      simp [this]
    · by_cases hsc : (getNextAction env ctx q).type = "scrape"
      · rw [runAux_scrape_step env q ctx h0 hsc]
        have := ih (10 - (ctx.step + 1)) (by omega)
          (scrapeStepContext env ctx (getNextAction env ctx q))
          (by rw [scrapeStepContext_step])
        simp only [countSearchCalls, countChosenOfType, List.countP_cons, hsc] at this ⊢
        simp [this]
      · by_cases han : (getNextAction env ctx q).type = "answer"
        · rw [runAux_answer_step env q ctx h0 han]
          simp [countSearchCalls, countChosenOfType, List.countP_cons, han]
        · rw [runAux_other_step env q ctx h0 hs hsc han]
          have := ih (10 - (ctx.step + 1)) (by omega)
            ctx.incrementStep (by simp [SystemContext.incrementStep])
          simp only [countSearchCalls, countChosenOfType, List.countP_cons] at this ⊢
          simp [this, hs]

theorem runAux_scrapeCalls_eq_chosen (env : Env) (q : String) :
    ∀ ctx : SystemContext,
      countScrapeCalls (runAgentLoopAux env q ctx).2 =
        countChosenOfType "scrape" (runAgentLoopAux env q ctx).2 := by
  intro ctx
  generalize hn : 10 - ctx.step = n
  induction n using Nat.strong_induction_on generalizing ctx with
  | _ n ih =>
  by_cases h : ctx.shouldStop = true
  · rw [runAux_stop env q ctx h]
    simp [countScrapeCalls, countChosenOfType]
  · have h0 : ctx.shouldStop = false := by simpa using h
    have hstep : ctx.step < 10 := by
      simpa [SystemContext.shouldStop] using h0
    by_cases hs : (getNextAction env ctx q).type = "search"
    · rw [runAux_search_step env q ctx h0 hs]
      have := ih (10 - (ctx.step + 1)) (by omega)
        (searchStepContext env ctx (getNextAction env ctx q))
        (by rw [searchStepContext_step])
      simp only [countScrapeCalls, countChosenOfType, List.countP_cons, hs] at this ⊢
      simp [this]
    · by_cases hsc : (getNextAction env ctx q).type = "scrape"
      · rw [runAux_scrape_step env q ctx h0 hsc]
        have := ih (10 - (ctx.step + 1)) (by omega)
          (scrapeStepContext env ctx (getNextAction env ctx q))
          (by rw [scrapeStepContext_step])
        simp only [countScrapeCalls, countChosenOfType, List.countP_cons, hsc] at this ⊢
        simp [this]
      · by_cases han : (getNextAction env ctx q).type = "answer"
        · rw [runAux_answer_step env q ctx h0 han]
          simp [countScrapeCalls, countChosenOfType, List.countP_cons, han]
        · rw [runAux_other_step env q ctx h0 hs hsc han]
          have := ih (10 - (ctx.step + 1)) (by omega)
            ctx.incrementStep (by simp [SystemContext.incrementStep])
          simp only [countScrapeCalls, countChosenOfType, List.countP_cons] at this ⊢
          simp [this, hsc]

theorem runAux_no_answer_run (env : Env) (q : String)
    (hna : ∀ c : SystemContext, (getNextAction env c q).type = "search" ∨
      (getNextAction env c q).type = "scrape") :
    ∀ ctx : SystemContext,
      countChooseCalls (runAgentLoopAux env q ctx).2 = 10 - ctx.step ∧
      countSearchCalls (runAgentLoopAux env q ctx).2 +
        countScrapeCalls (runAgentLoopAux env q ctx).2 = 10 - ctx.step ∧
      countAnswerCallsWith true (runAgentLoopAux env q ctx).2 = 1 ∧
      countAnswerCallsWith false (runAgentLoopAux env q ctx).2 = 0 ∧
      ∃ c' : SystemContext, c'.step = max 10 ctx.step ∧
        (runAgentLoopAux env q ctx).1 = answerQuestion env c' q { isFinal := true } := by
  intro ctx
  generalize hn : 10 - ctx.step = n
  induction n using Nat.strong_induction_on generalizing ctx with
  | _ n ih =>
  by_cases h : ctx.shouldStop = true
  · rw [runAux_stop env q ctx h]
    have hstep : 10 ≤ ctx.step := by
      simpa [SystemContext.shouldStop] using h
    refine ⟨?_, ?_, ?_, ?_, ctx, by omega, rfl⟩ <;>
      simp [countChooseCalls, countSearchCalls, countScrapeCalls, countAnswerCallsWith] <;>
      omega
  · have h0 : ctx.shouldStop = false := by simpa using h
    have hstep : ctx.step < 10 := by
      simpa [SystemContext.shouldStop] using h0
    rcases hna ctx with hs | hsc
    · rw [runAux_search_step env q ctx h0 hs]
      have := ih (10 - (ctx.step + 1)) (by omega)
        (searchStepContext env ctx (getNextAction env ctx q))
        (by rw [searchStepContext_step])
      rw [searchStepContext_step] at this
      obtain ⟨h1, h2, h3, h4, c', hc', hval⟩ := this
      refine ⟨?_, ?_, ?_, ?_, c', by omega, hval⟩
      all_goals
        simp [countChooseCalls, countSearchCalls, countScrapeCalls,
          countAnswerCallsWith, List.countP_cons] at h1 h2 h3 h4 ⊢
      all_goals first
      | omega
      | assumption
    · rw [runAux_scrape_step env q ctx h0 hsc]
      have := ih (10 - (ctx.step + 1)) (by omega)
        (scrapeStepContext env ctx (getNextAction env ctx q))
        (by rw [scrapeStepContext_step])
      rw [scrapeStepContext_step] at this
      obtain ⟨h1, h2, h3, h4, c', hc', hval⟩ := this
      refine ⟨?_, ?_, ?_, ?_, c', by omega, hval⟩
      all_goals
        simp [countChooseCalls, countSearchCalls, countScrapeCalls,
          countAnswerCallsWith, List.countP_cons] at h1 h2 h3 h4 ⊢
      all_goals first
      | omega
      | assumption

theorem joinSep_append (sep : String) (l1 l2 : List String) :
    ∃ t, joinSep sep (l1 ++ l2) = joinSep sep l1 ++ t := by
  induction l1 with
  | nil => exact ⟨joinSep sep l2, by simp [joinSep]⟩
  | cons x xs ih =>
    cases xs with
    | nil =>
      cases l2 with
      | nil => exact ⟨"", by simp [joinSep]⟩
      | cons y ys =>
        exact ⟨sep ++ joinSep sep (y :: ys), by simp [joinSep, String.append_assoc]⟩
    | cons y ys =>
      obtain ⟨t, ht⟩ := ih
      refine ⟨t, ?_⟩
      simp only [List.cons_append] at ht ⊢
      simp [joinSep, ht, String.append_assoc]

theorem joinSep_map_append {α : Type} (sep : String) (g : α → String) (l1 l2 : List α) :
    ∃ t, joinSep sep ((l1 ++ l2).map g) = joinSep sep (l1.map g) ++ t := by
  have := joinSep_append sep (l1.map g) (l2.map g)
  simpa [List.map_append] using this

theorem scrapeEntries_filter_map (rs : List BulkCrawlEntry) :
    ((rs.map fun r =>
        ({ url := r.url, success := r.result.isOk, data := r.result.dataOrError } :
          ScrapeUrlEntry)).filter fun result => result.success).map
        (fun result => ({ url := result.url, result := result.data } : ScrapeResult)) =
      (rs.filter fun r => r.result.isOk).map fun r =>
        ({ url := r.url, result := r.result.dataOrError } : ScrapeResult) := by
  induction rs with
  | nil => simp
  | cons r rs ih =>
    cases hr : r.result.isOk <;> simp [List.filter_cons, hr, ih]

theorem applyScrapeResults_scrapeUrl (env : Env) (ctx : SystemContext)
    (urls : Option (List String)) :
    applyScrapeResults ctx (scrapeUrl env urls) =
      ctx.reportScrapes (successfulScrapeRecords env urls) := by
  unfold applyScrapeResults scrapeUrl bulkCrawlWebsites successfulScrapeRecords
  by_cases hall : (env.crawlResults urls).all (fun e => e.result.isOk) <;>
    simp [hall, scrapeEntries_filter_map]

theorem string_foldl_append (l : List String) (a : String) :
    l.foldl (· ++ ·) a = a ++ l.foldl (· ++ ·) "" := by
  induction l generalizing a with
  | nil => simp [String.append_empty]
  | cons c l ih =>
    simp only [List.foldl_cons]
    rw [ih (a ++ c), ih ("" ++ c), String.empty_append, String.append_assoc]

theorem string_join_cons (c : String) (l : List String) :
    String.join (c :: l) = c ++ String.join l := by
  simp only [String.join, List.foldl_cons]
  rw [string_foldl_append l ("" ++ c), String.empty_append]

theorem collectStream_spec (s : TextStream) :
    ∀ acc : String,
      collectStream s acc =
        match s.raisedError with
        | none => .ok (acc ++ String.join s.chunks)
        | some e => .error e := by
  induction s with
  | done =>
    intro acc
    simp [collectStream, TextStream.raisedError, TextStream.chunks, String.join,
      String.append_empty]
  | next c rest ih =>
    intro acc
    simp only [collectStream, TextStream.raisedError, TextStream.chunks, ih (acc ++ c),
      string_join_cons]
    cases rest.raisedError <;> simp [String.append_assoc]
  | err e =>
    intro acc
    simp [collectStream, TextStream.raisedError]

/-! The claim theorems. -/

/-- C1: for every execution of `runAgentLoop` — whatever sequence of
actions the Action Chooser returns — the Action Chooser is invoked at
most 10 times and the Answer Synthesizer is called exactly once; the
loop terminates by construction (`runAgentLoopAux` is a total function
on the decreasing budget `10 - step`), so there is no execution with an
11th action-selection iteration or with zero or two answer-synthesis
calls. -/
theorem runAgentLoop_bounded_iterations (env : Env) (q : String) :
    countChooseCalls (runAgentLoop env q).2 ≤ 10 ∧
    countAnswerCalls (runAgentLoop env q).2 = 1 := by
  constructor
  · have := runAux_countChooseCalls_le env q {}
    simpa [runAgentLoop] using this
  · have := runAux_countAnswerCalls env q {}
    simpa [runAgentLoop] using this

/-- C2: at any loop iteration (any context the `while` guard admits), if
the Action Chooser returns an action of type `answer`, the loop
immediately returns a single `answerQuestion` call in normal mode
(`isFinal = false`) on the current context — unchanged, so the step
counter is not incremented — and the trace records no further chooser,
search or scrape interaction. -/
theorem runAgentLoop_answer_action_immediate (env : Env) (q : String)
    (ctx : SystemContext) (h0 : ctx.shouldStop = false)
    (ha : (getNextAction env ctx q).type = "answer") :
    runAgentLoopAux env q ctx =
      (answerQuestion env ctx q { isFinal := false },
        [.choose (getNextAction env ctx q), .answerCall false]) :=
  runAux_answer_step env q ctx h0 ha

/-- Witness for C2: a chooser that immediately answers at the fresh
context. -/
theorem runAgentLoop_answer_action_immediate_witness :
    runAgentLoopAux (envChoosing answerChoiceAction) "q" {} =
      (answerQuestion (envChoosing answerChoiceAction) {} "q" { isFinal := false },
        [.choose (getNextAction (envChoosing answerChoiceAction) {} "q"),
          .answerCall false]) :=
  runAgentLoop_answer_action_immediate (envChoosing answerChoiceAction) "q" {}
    (by decide) rfl

/-- C3: if the Action Chooser returns a non-`answer` (search or scrape)
action at every iteration, the full run performs exactly 10 iterations,
executes the chosen search or scrape collaborator on each of them, and
returns the result of exactly one `answerQuestion` call in best-effort
mode (`isFinal = true`) on a context whose step counter reached 10. -/
theorem runAgentLoop_ten_iterations_best_effort (env : Env) (q : String)
    (hna : ∀ c : SystemContext, (getNextAction env c q).type = "search" ∨
      (getNextAction env c q).type = "scrape") :
    countChooseCalls (runAgentLoop env q).2 = 10 ∧
    countSearchCalls (runAgentLoop env q).2 + countScrapeCalls (runAgentLoop env q).2 = 10 ∧
    countSearchCalls (runAgentLoop env q).2 =
      countChosenOfType "search" (runAgentLoop env q).2 ∧
    countScrapeCalls (runAgentLoop env q).2 =
      countChosenOfType "scrape" (runAgentLoop env q).2 ∧
    countAnswerCallsWith true (runAgentLoop env q).2 = 1 ∧
    countAnswerCallsWith false (runAgentLoop env q).2 = 0 ∧
    ∃ c' : SystemContext, c'.step = 10 ∧
      (runAgentLoop env q).1 = answerQuestion env c' q { isFinal := true } := by
  obtain ⟨h1, h2, h3, h4, c', hc', hval⟩ := runAux_no_answer_run env q hna {}
  refine ⟨?_, ?_, ?_, ?_, ?_, ?_, c', ?_, ?_⟩
  · simpa [runAgentLoop] using h1
  · simpa [runAgentLoop] using h2
  · simpa [runAgentLoop] using runAux_searchCalls_eq_chosen env q {}
  · simpa [runAgentLoop] using runAux_scrapeCalls_eq_chosen env q {}
  · simpa [runAgentLoop] using h3
  · simpa [runAgentLoop] using h4
  · simpa using hc'
  · simpa [runAgentLoop] using hval

/-- Witness for C3: a chooser that always searches. -/
theorem runAgentLoop_ten_iterations_best_effort_witness :
    countChooseCalls (runAgentLoop (envChoosing searchChoiceAction) "q").2 = 10 ∧
    countSearchCalls (runAgentLoop (envChoosing searchChoiceAction) "q").2 +
      countScrapeCalls (runAgentLoop (envChoosing searchChoiceAction) "q").2 = 10 ∧
    countSearchCalls (runAgentLoop (envChoosing searchChoiceAction) "q").2 =
      countChosenOfType "search" (runAgentLoop (envChoosing searchChoiceAction) "q").2 ∧
    countScrapeCalls (runAgentLoop (envChoosing searchChoiceAction) "q").2 =
      countChosenOfType "scrape" (runAgentLoop (envChoosing searchChoiceAction) "q").2 ∧
    countAnswerCallsWith true (runAgentLoop (envChoosing searchChoiceAction) "q").2 = 1 ∧
    countAnswerCallsWith false (runAgentLoop (envChoosing searchChoiceAction) "q").2 = 0 ∧
    ∃ c' : SystemContext, c'.step = 10 ∧
      (runAgentLoop (envChoosing searchChoiceAction) "q").1 =
        answerQuestion (envChoosing searchChoiceAction) c' "q" { isFinal := true } :=
  runAgentLoop_ten_iterations_best_effort (envChoosing searchChoiceAction) "q"
    (fun _ => Or.inl rfl)

/-- C4: scrape scenario with urls `[ua, ub]` where `ua` succeeds and
`ub` fails: exactly one record — `ua`'s extracted content — is appended
to the scrape history, `ub` produces no entry and no error, and the
loop continues with the incremented context. -/
theorem runAgentLoop_scrape_partial_failure (env : Env) (q : String)
    (ctx : SystemContext) (ua ub ca eb : String) (h0 : ctx.shouldStop = false)
    (hty : (getNextAction env ctx q).type = "scrape")
    (hurls : (getNextAction env ctx q).urls = some [ua, ub])
    (hcrawl : env.crawlResults (some [ua, ub]) =
      [{ url := ua, result := .ok ca }, { url := ub, result := .fail eb }]) :
    runAgentLoopAux env q ctx =
      ((runAgentLoopAux env q
          ((ctx.reportScrapes [{ url := ua, result := ca }]).incrementStep)).1,
        .choose (getNextAction env ctx q) :: .scrapeCall (some [ua, ub]) ::
          (runAgentLoopAux env q
            ((ctx.reportScrapes [{ url := ua, result := ca }]).incrementStep)).2) ∧
    (ctx.reportScrapes [{ url := ua, result := ca }]).scrapeHistory =
      ctx.scrapeHistory ++ [{ url := ua, result := ca }] := by
  have hrecords : successfulScrapeRecords env (some [ua, ub]) =
      [{ url := ua, result := ca }] := by
    simp [successfulScrapeRecords, hcrawl, CrawlResult.isOk, CrawlResult.dataOrError,
      List.filter_cons]
  constructor
  · have h := runAux_scrape_step env q ctx h0 hty
    simp only [scrapeStepContext, applyScrapeResults_scrapeUrl, hurls, hrecords] at h
    exact h
  · simp [SystemContext.reportScrapes]

/-- Witness for C4: the concrete two-URL scenario. -/
theorem runAgentLoop_scrape_partial_failure_witness :
    runAgentLoopAux (envChoosing scrapeChoiceAction) "q" {} =
      ((runAgentLoopAux (envChoosing scrapeChoiceAction) "q"
          ((({} : SystemContext).reportScrapes
            [{ url := "a", result := "content-a" }]).incrementStep)).1,
        .choose (getNextAction (envChoosing scrapeChoiceAction) {} "q") ::
          .scrapeCall (some ["a", "b"]) ::
          (runAgentLoopAux (envChoosing scrapeChoiceAction) "q"
            ((({} : SystemContext).reportScrapes
              [{ url := "a", result := "content-a" }]).incrementStep)).2) ∧
    (({} : SystemContext).reportScrapes
        [{ url := "a", result := "content-a" }]).scrapeHistory =
      ({} : SystemContext).scrapeHistory ++ [{ url := "a", result := "content-a" }] :=
  runAgentLoop_scrape_partial_failure (envChoosing scrapeChoiceAction) "q" {}
    "a" "b" "content-a" "fetch failed" (by decide) rfl rfl rfl

/-- C5: for every `reportQueries` / `reportScrapes` call, the stored
history is extended by exactly the given records at the end (insertion
order, nothing removed, duplicates retained — no de-duplication), and
the rendered history before the append is a prefix of the rendered
history after it. -/
theorem histories_append_only (c : SystemContext) (qs : List QueryResult)
    (ss : List ScrapeResult) :
    ((c.reportQueries qs).queryHistory = c.queryHistory ++ qs ∧
      ∃ t, (c.reportQueries qs).getQueryHistory = c.getQueryHistory ++ t) ∧
    ((c.reportScrapes ss).scrapeHistory = c.scrapeHistory ++ ss ∧
      ∃ u, (c.reportScrapes ss).getScrapeHistory = c.getScrapeHistory ++ u) := by
  refine ⟨⟨rfl, ?_⟩, ⟨rfl, ?_⟩⟩
  · obtain ⟨t, ht⟩ := joinSep_map_append "\n\n"
      (fun query => joinSep "\n\n"
        (("## Query: \"" ++ jsString query.query ++ "\"") :: query.results.map toQueryResult))
      c.queryHistory qs
    exact ⟨t, by simpa [SystemContext.getQueryHistory, SystemContext.reportQueries] using ht⟩
  · obtain ⟨u, hu⟩ := joinSep_map_append "\n\n"
      (fun scrape => joinSep "\n\n"
        ["## Scrape: \"" ++ scrape.url ++ "\"", "<scrape_result>", scrape.result,
          "</scrape_result>"])
      c.scrapeHistory ss
    exact ⟨u, by simpa [SystemContext.getScrapeHistory, SystemContext.reportScrapes] using hu⟩

/-- C6: `getNextAction` only guarantees schema conformance: any action
object whose `type` is one of the three enum values passes
`actionSchemaOk` even with `query` absent (for `search`) or `urls`
absent or empty (for `scrape`); `getNextAction` returns the LLM
layer's object unchanged, and the loop's search/scrape branch hands the
absent field directly to the collaborator with no validation. -/
theorem actionSchema_validation_gap :
    (∀ env : Env, ∀ ctx : SystemContext, ∀ q : String,
      (∀ c p, actionSchemaOk (env.chooseObject c p) = true) →
        actionSchemaOk (getNextAction env ctx q) = true) ∧
    (∀ a : Action,
      (a.type = "search" ∧ a.query = none) ∨
        (a.type = "scrape" ∧ (a.urls = none ∨ a.urls = some [])) →
      actionSchemaOk a = true ∧
      ∀ env : Env, ∀ ctx : SystemContext, ∀ q : String,
        env.chooseObject ctx (buildNextActionPrompt env.now ctx q) = a →
          getNextAction env ctx q = a) ∧
    (∀ env : Env, ∀ ctx : SystemContext, ∀ q : String, ctx.shouldStop = false →
      (getNextAction env ctx q).type = "search" →
      (getNextAction env ctx q).query = none →
      ∃ rest, (runAgentLoopAux env q ctx).2 =
        .choose (getNextAction env ctx q) :: .searchCall none :: rest) ∧
    (∀ env : Env, ∀ ctx : SystemContext, ∀ q : String, ctx.shouldStop = false →
      (getNextAction env ctx q).type = "scrape" →
      ((getNextAction env ctx q).urls = none ∨ (getNextAction env ctx q).urls = some []) →
      ∃ rest, (runAgentLoopAux env q ctx).2 =
        .choose (getNextAction env ctx q) ::
          .scrapeCall (getNextAction env ctx q).urls :: rest) := by
  refine ⟨?_, ?_, ?_, ?_⟩
  · intro env ctx q hv
    exact hv ctx _
  · intro a ha
    constructor
    · rcases ha with ⟨h1, _⟩ | ⟨h1, _⟩ <;> simp [actionSchemaOk, h1]
    · intro env ctx q h
      simp [getNextAction, h]
  · intro env ctx q h0 hty hq
    refine ⟨(runAgentLoopAux env q
      (searchStepContext env ctx (getNextAction env ctx q))).2, ?_⟩
    rw [runAux_search_step env q ctx h0 hty, hq]
  · intro env ctx q h0 hty _
    exact ⟨(runAgentLoopAux env q
      (scrapeStepContext env ctx (getNextAction env ctx q))).2,
      by rw [runAux_scrape_step env q ctx h0 hty]⟩

/-- Witness for C6: a schema-conforming `search` action without a query
is returned unchanged and reaches the search collaborator as an absent
query. -/
theorem actionSchema_validation_gap_witness :
    actionSchemaOk queryFreeSearchAction = true ∧
    getNextAction (envChoosing queryFreeSearchAction) {} "q" = queryFreeSearchAction ∧
    ∃ rest, (runAgentLoopAux (envChoosing queryFreeSearchAction) "q" {}).2 =
      .choose (getNextAction (envChoosing queryFreeSearchAction) {} "q") ::
        .searchCall none :: rest :=
  ⟨(actionSchema_validation_gap.2.1 queryFreeSearchAction (Or.inl ⟨rfl, rfl⟩)).1,
    (actionSchema_validation_gap.2.1 queryFreeSearchAction (Or.inl ⟨rfl, rfl⟩)).2
      (envChoosing queryFreeSearchAction) {} "q" rfl,
    actionSchema_validation_gap.2.2.1 (envChoosing queryFreeSearchAction) {} "q"
      (by decide) rfl rfl⟩

/-- C7: `shouldStop()` is true exactly when the step counter has
reached the fixed budget of 10. -/
theorem shouldStop_iff_step_ge_ten (c : SystemContext) :
    c.shouldStop = true ↔ 10 ≤ c.step := by
  simp [SystemContext.shouldStop]

/-- C8: `answerQuestion` returns the in-order concatenation of every
chunk of the generation stream when (and only when) the stream
completes; if the stream raises an error, that error propagates and no
partial text is returned. -/
theorem answerQuestion_stream_semantics (env : Env) (context : SystemContext)
    (userQuestion : String) (options : AnswerOptions) :
    answerQuestion env context userQuestion options =
      match (env.generated
          (buildAnswerSystemPrompt env.now userQuestion options context)).raisedError with
      | none => .ok (String.join (env.generated
          (buildAnswerSystemPrompt env.now userQuestion options context)).chunks)
      | some e => .error e := by
  unfold answerQuestion
  rw [collectStream_spec]
  cases (env.generated
    (buildAnswerSystemPrompt env.now userQuestion options context)).raisedError <;>
    simp [String.empty_append]

/-- C9: an aggregate scrape failure never terminates the loop: whenever
the crawler's aggregate `success` flag is false, the loop still appends
the records of every individually successful URL, increments the step,
and continues with the next iteration — the same continuation as in the
all-success case, with no error raised. -/
theorem runAgentLoop_scrape_failure_nonfatal (env : Env) (q : String)
    (ctx : SystemContext) (h0 : ctx.shouldStop = false)
    (hty : (getNextAction env ctx q).type = "scrape")
    (hfail : (bulkCrawlWebsites env (getNextAction env ctx q).urls).success = false) :
    runAgentLoopAux env q ctx =
      ((runAgentLoopAux env q
          ((ctx.reportScrapes
            (successfulScrapeRecords env (getNextAction env ctx q).urls)).incrementStep)).1,
        .choose (getNextAction env ctx q) ::
          .scrapeCall (getNextAction env ctx q).urls ::
          (runAgentLoopAux env q
            ((ctx.reportScrapes
              (successfulScrapeRecords env (getNextAction env ctx q).urls)).incrementStep)).2) := by
  have h := runAux_scrape_step env q ctx h0 hty
  simpa [scrapeStepContext, applyScrapeResults_scrapeUrl] using h

/-- Witness for C9: a concrete crawl with one failing URL. -/
theorem runAgentLoop_scrape_failure_nonfatal_witness :
    runAgentLoopAux (envChoosing scrapeChoiceAction) "q2" {} =
      ((runAgentLoopAux (envChoosing scrapeChoiceAction) "q2"
          ((({} : SystemContext).reportScrapes
            (successfulScrapeRecords (envChoosing scrapeChoiceAction)
              (getNextAction (envChoosing scrapeChoiceAction) {} "q2").urls)).incrementStep)).1,
        .choose (getNextAction (envChoosing scrapeChoiceAction) {} "q2") ::
          .scrapeCall (getNextAction (envChoosing scrapeChoiceAction) {} "q2").urls ::
          (runAgentLoopAux (envChoosing scrapeChoiceAction) "q2"
            ((({} : SystemContext).reportScrapes
              (successfulScrapeRecords (envChoosing scrapeChoiceAction)
                (getNextAction (envChoosing scrapeChoiceAction) {} "q2").urls)).incrementStep)).2) :=
  runAgentLoop_scrape_failure_nonfatal (envChoosing scrapeChoiceAction) "q2" {}
    (by decide) rfl (by decide)

/-- C10: the step counter and the evidence histories are independent:
`incrementStep` changes only the step counter and leaves both stored
and rendered histories unchanged; `reportQueries` leaves the step
counter and the scrape history unchanged; `reportScrapes` leaves the
step counter and the query history unchanged. -/
theorem context_frame_conditions (c : SystemContext) (qs : List QueryResult)
    (ss : List ScrapeResult) :
    (c.incrementStep.step = c.step + 1 ∧
      c.incrementStep.getQueryHistory = c.getQueryHistory ∧
      c.incrementStep.getScrapeHistory = c.getScrapeHistory ∧
      c.incrementStep.queryHistory = c.queryHistory ∧
      c.incrementStep.scrapeHistory = c.scrapeHistory) ∧
    ((c.reportQueries qs).step = c.step ∧
      (c.reportQueries qs).scrapeHistory = c.scrapeHistory ∧
      (c.reportQueries qs).getScrapeHistory = c.getScrapeHistory) ∧
    ((c.reportScrapes ss).step = c.step ∧
      (c.reportScrapes ss).queryHistory = c.queryHistory ∧
      (c.reportScrapes ss).getQueryHistory = c.getQueryHistory) :=
  ⟨⟨rfl, rfl, rfl, rfl, rfl⟩, ⟨rfl, rfl, rfl⟩, ⟨rfl, rfl, rfl⟩⟩

end DeepSearch
